import Mathlib

/-!
Shallow embedding of the causality analyzer in `src/app.py`.

The program has two pieces of domain logic:

* `calculate_causality` (app.py lines 9-26): divides a spatial distance by a
  time separation and compares the quotient with the speed of light; a zero
  time separation is handled before the division and produces the sentinel
  pair `(False, float(\x7binf\x7d))`.
* the geometric core of `create_animated_diagram` (app.py lines 43-74): two
  fixed event points, a normalized direction vector, and the positions of a
  light marker and an information marker for a given animation progress.

Python floats are modelled by exact real numbers extended with the special
values `+inf`, `-inf` and `nan` (the inductive type `EFloat` below), with the
IEEE-754 rules the interpreter uses at the operations the program performs:
`0 * inf = nan`, a positive finite number times `+inf` is `+inf`, and every
comparison with `nan` is false.  Rounding error is not modelled (the spec
states its equalities up to floating-point tolerance), but the special
values are modelled exactly, because the program's control flow branches on
comparisons that can see them.
-/

/-- Speed of light constant, app.py line 7 (`SPEED_OF_LIGHT = 3e8`). -/
def SPEED_OF_LIGHT : ℝ := 300000000

/-- A Python float value: a finite real, one of the two infinities, or `nan`.
Finite values carry an exact real instead of an IEEE-754 double. -/
inductive EFloat where
  | neginf : EFloat
  | fin : ℝ → EFloat
  | inf : EFloat
  | nan : EFloat

namespace EFloat

/-- Comparison `e <= y` of a float against a finite float, as evaluated by
Python: any comparison involving `nan` is false, `+inf <= y` is false,
`-inf <= y` is true, and finite values compare as reals. -/
def leR : EFloat → ℝ → Prop
  | neginf, _ => True
  | fin r, y => r ≤ y
  | inf, _ => False
  | nan, _ => False

noncomputable instance : ∀ (e : EFloat) (y : ℝ), Decidable (e.leR y)
  | neginf, _ => isTrue trivial
  | fin r, y => inferInstanceAs (Decidable (r ≤ y))
  | inf, _ => isFalse (fun h => h)
  | nan, _ => isFalse (fun h => h)

/-- Product `x * e` of a finite float `x` with a float `e`, as evaluated by
Python: a finite times `+inf` is `+inf`, `-inf` or `nan` according to the
sign of the finite factor, and `nan` is absorbing. -/
noncomputable def mulR (x : ℝ) : EFloat → EFloat
  | fin r => fin (x * r)
  | inf => if 0 < x then inf else if x < 0 then neginf else nan
  | neginf => if 0 < x then neginf else if x < 0 then inf else nan
  | nan => nan

/-- Quotient `e / c` of a float by a finite float `c`, as evaluated by
Python for `c ≠ 0`: infinities keep or flip their sign with the sign of
`c`, `nan` is absorbing.  The program only divides by `SPEED_OF_LIGHT`,
which is positive, so the `c = 0` case (a Python `ZeroDivisionError`) is
never reached; the model returns `nan` there. -/
noncomputable def divR : EFloat → ℝ → EFloat
  | fin r, c => fin (r / c)
  | inf, c => if 0 < c then inf else if c < 0 then neginf else nan
  | neginf, c => if 0 < c then neginf else if c < 0 then inf else nan
  | nan, _ => nan

/-- The real value of a finite float; junk value `0` on the special values
(the program only reads the value of a float it has already compared as
`<=` some finite bound, where `nan` and `+inf` cannot occur). -/
def toReal : EFloat → ℝ
  | fin r => r
  | _ => 0

/-- Comparison `e <= f` of two floats, as evaluated by Python: false as
soon as `nan` is involved, otherwise the order `-inf < finite < +inf`. -/
def leE : EFloat → EFloat → Prop
  | nan, _ => False
  | _, nan => False
  | neginf, _ => True
  | _, inf => True
  | inf, _ => False
  | fin _, neginf => False
  | fin a, fin b => a ≤ b

end EFloat

/-- Embedding of `calculate_causality` (app.py lines 9-26): for a zero time
separation return the sentinel `(False, float(\x7binf\x7d))`; otherwise return the
ratio `distance / time` together with the comparison against
`SPEED_OF_LIGHT`. -/
noncomputable def calculate_causality (distance time : ℝ) : Bool × EFloat :=
  if time = 0 then (false, EFloat.inf)
  else
    (decide (distance / time ≤ SPEED_OF_LIGHT), EFloat.fin (distance / time))

/-- Event B, the origin point of the diagram (app.py line 43). -/
def event_b_pos : ℝ × ℝ := (1, 3)

/-- Event A, the destination point of the diagram (app.py line 44). -/
def event_a_pos : ℝ × ℝ := (9, 6)

/-- Direction vector `event_a_pos - event_b_pos` (app.py line 57). -/
def direction : ℝ × ℝ :=
  (event_a_pos.1 - event_b_pos.1, event_a_pos.2 - event_b_pos.2)

/-- Euclidean norm of the direction vector, `np.linalg.norm` (app.py
line 58). -/
noncomputable def distance_between : ℝ :=
  Real.sqrt (direction.1 ^ 2 + direction.2 ^ 2)

/-- Normalized direction vector (app.py line 59). -/
noncomputable def direction_normalized : ℝ × ℝ :=
  (direction.1 / distance_between, direction.2 / distance_between)

/-- Distance travelled by the light marker (app.py line 62). -/
noncomputable def light_progress (animation_step : ℝ) : ℝ :=
  animation_step * distance_between

/-- Position of the light marker (app.py line 63). -/
noncomputable def light_pos (animation_step : ℝ) : ℝ × ℝ :=
  (event_b_pos.1 + direction_normalized.1 * light_progress animation_step,
   event_b_pos.2 + direction_normalized.2 * light_progress animation_step)

/-- Speed of the information relative to the speed of light,
`speed_ratio / SPEED_OF_LIGHT` (app.py line 50). -/
noncomputable def info_speed_factor (distance time : ℝ) : EFloat :=
  ((calculate_causality distance time).2).divR SPEED_OF_LIGHT

/-- Distance travelled by the information marker (app.py lines 66-69).
The source tests `info_speed_factor <= 1.0` but computes the very same
product `animation_step * distance_between * info_speed_factor` in both
branches; the test is kept to mirror the control flow. -/
noncomputable def info_progress (distance time animation_step : ℝ) : EFloat :=
  if (info_speed_factor distance time).leR 1 then
    EFloat.mulR (animation_step * distance_between) (info_speed_factor distance time)
  else
    EFloat.mulR (animation_step * distance_between) (info_speed_factor distance time)

/-- Position of the information marker (app.py lines 71-74): the linear
interpolation while `info_progress <= distance_between`, and the
destination point once the comparison fails (which includes the `nan`
case, since a comparison with `nan` is false). -/
noncomputable def info_pos (distance time animation_step : ℝ) : ℝ × ℝ :=
  if (info_progress distance time animation_step).leR distance_between then
    (event_b_pos.1 + direction_normalized.1 * (info_progress distance time animation_step).toReal,
     event_b_pos.2 + direction_normalized.2 * (info_progress distance time animation_step).toReal)
  else
    event_a_pos

/-- The geometric content of one frame of `create_animated_diagram`
(app.py lines 43-74): the pair of the light marker position and the
information marker position.  The drawing calls are presentation only and
are not part of the embedding. -/
noncomputable def create_animated_diagram (distance time animation_step : ℝ) :
    (ℝ × ℝ) × (ℝ × ℝ) :=
  (light_pos animation_step, info_pos distance time animation_step)

/-! Basic facts about the fixed geometry. -/

theorem direction_eq : direction = (8, 3) := by
  simp only [direction, event_a_pos, event_b_pos]
  norm_num

theorem distance_between_eq : distance_between = Real.sqrt 73 := by
  rw [distance_between, direction_eq]
  norm_num

theorem distance_between_pos : 0 < distance_between := by
  rw [distance_between_eq]
  exact Real.sqrt_pos.mpr (by norm_num)

theorem distance_between_ne : distance_between ≠ 0 :=
  ne_of_gt distance_between_pos

theorem cancel_norm (a s : ℝ) :
    a / distance_between * (s * distance_between) = s * a := by
  have h := distance_between_ne
  field_simp
  ring

theorem SPEED_OF_LIGHT_pos : 0 < SPEED_OF_LIGHT := by
  norm_num [SPEED_OF_LIGHT]

theorem calculate_causality_of_ne (d t : ℝ) (h : t ≠ 0) :
    calculate_causality d t =
      (decide (d / t ≤ SPEED_OF_LIGHT), EFloat.fin (d / t)) := by
  simp [calculate_causality, h]

/-- C1: for every distance >= 0 and every timeDelta > 0, `calculate_causality`
returns requiredSpeed equal to distance / timeDelta and isCausal equal to
the comparison of that quotient with `SPEED_OF_LIGHT`. -/
theorem claim_C1 (distance time : ℝ) (hd : 0 ≤ distance) (ht : 0 < time) :
    (calculate_causality distance time).2 = EFloat.fin (distance / time) ∧
    ((calculate_causality distance time).1 = true ↔
      distance / time ≤ SPEED_OF_LIGHT) := by
  have h0 : time ≠ 0 := ne_of_gt ht
  simp [calculate_causality, h0]

/-- Witness for C1 at distance 6, time 2. -/
theorem claim_C1_witness :
    ((0:ℝ) ≤ 6 ∧ (0:ℝ) < 2) ∧
    ((calculate_causality 6 2).2 = EFloat.fin (6 / 2) ∧
     ((calculate_causality 6 2).1 = true ↔ (6:ℝ) / 2 ≤ SPEED_OF_LIGHT)) :=
  ⟨⟨by norm_num, by norm_num⟩, claim_C1 6 2 (by norm_num) (by norm_num)⟩

/-- C2: for every distance >= 0, `calculate_causality` at timeDelta 0
returns the sentinel pair of isCausal false and requiredSpeed plus
infinity, without any error. -/
theorem claim_C2 (distance : ℝ) (hd : 0 ≤ distance) :
    calculate_causality distance 0 = (false, EFloat.inf) := by
  simp [calculate_causality]

/-- Witness for C2 at distance 7. -/
theorem claim_C2_witness :
    (0:ℝ) ≤ 7 ∧ calculate_causality 7 0 = (false, EFloat.inf) :=
  ⟨by norm_num, claim_C2 7 (by norm_num)⟩

/-- C7: the required speed is monotone in the inputs: at a fixed positive
timeDelta it is nondecreasing in the distance, and at a fixed positive
distance it is nonincreasing in a positive timeDelta. -/
theorem claim_C7 :
    (∀ d1 d2 t : ℝ, 0 < t → d1 ≤ d2 →
      EFloat.leE (calculate_causality d1 t).2 (calculate_causality d2 t).2) ∧
    (∀ d t1 t2 : ℝ, 0 < d → 0 < t1 → t1 ≤ t2 →
      EFloat.leE (calculate_causality d t2).2 (calculate_causality d t1).2) := by
  constructor
  · intro d1 d2 t ht h12
    have h0 : t ≠ 0 := ne_of_gt ht
    simp only [calculate_causality, if_neg h0]
    show d1 / t ≤ d2 / t
    exact (div_le_div_right ht).mpr h12
  · intro d t1 t2 hd ht1 h12
    have ht2 : 0 < t2 := lt_of_lt_of_le ht1 h12
    simp only [calculate_causality, if_neg (ne_of_gt ht1), if_neg (ne_of_gt ht2)]
    show d / t2 ≤ d / t1
    exact (div_le_div_left hd ht2 ht1).mpr h12

/-- Witness for C7: distances 2 <= 5 at time 3, and times 2 <= 6 at
distance 4. -/
theorem claim_C7_witness :
    EFloat.leE (calculate_causality 2 3).2 (calculate_causality 5 3).2 ∧
    EFloat.leE (calculate_causality 4 6).2 (calculate_causality 4 2).2 :=
  ⟨claim_C7.1 2 5 3 (by norm_num) (by norm_num),
   claim_C7.2 4 2 6 (by norm_num) (by norm_num) (by norm_num)⟩

/-- Counterexample to C8: at distance 1e9 and timeDelta 1 the returned
required speed is exactly 1e9, which is smaller than a third of the
claimed value 3.33e9, hence not approximately 3.33e9. -/
theorem claim_C8_cex :
    (calculate_causality 1000000000 1).2 = EFloat.fin 1000000000 ∧
    3 * (1000000000 : ℝ) < 3330000000 := by
  constructor
  · rw [calculate_causality_of_ne 1000000000 1 (by norm_num)]
    norm_num
  · norm_num

/-- C8 amended: at distance 1e9 and timeDelta 1 with `SPEED_OF_LIGHT` 3e8,
`calculate_causality` returns requiredSpeed exactly 1e9 (so the ratio
requiredSpeed / SPEED_OF_LIGHT is approximately 3.33) and isCausal
false. -/
theorem claim_C8_amended :
    calculate_causality 1000000000 1 = (false, EFloat.fin 1000000000) ∧
    |(1000000000 : ℝ) / SPEED_OF_LIGHT - 333 / 100| ≤ 1 / 100 := by
  constructor
  · rw [calculate_causality_of_ne 1000000000 1 (by norm_num)]
    norm_num [SPEED_OF_LIGHT]
  · rw [abs_le]
    constructor <;> norm_num [SPEED_OF_LIGHT]

/-- C9: for every distance >= 0 and timeDelta < 0, `calculate_causality`
returns isCausal true with the nonpositive required speed
distance / timeDelta: negative times are silently reported causal. -/
theorem claim_C9 (distance time : ℝ) (hd : 0 ≤ distance) (ht : time < 0) :
    calculate_causality distance time =
      (true, EFloat.fin (distance / time)) ∧
    distance / time ≤ 0 := by
  have h0 : time ≠ 0 := ne_of_lt ht
  have hq : distance / time ≤ 0 := by
    rw [div_nonpos_iff]
    exact Or.inl ⟨hd, le_of_lt ht⟩
  have hc : distance / time ≤ SPEED_OF_LIGHT :=
    le_trans hq (le_of_lt SPEED_OF_LIGHT_pos)
  refine ⟨?_, hq⟩
  rw [calculate_causality_of_ne distance time h0]
  simp [hc]

/-- Witness for C9 at distance 5, time -2. -/
theorem claim_C9_witness :
    ((0:ℝ) ≤ 5 ∧ (-2:ℝ) < 0) ∧
    (calculate_causality 5 (-2) = (true, EFloat.fin (5 / (-2))) ∧
     (5:ℝ) / (-2) ≤ 0) :=
  ⟨⟨by norm_num, by norm_num⟩, claim_C9 5 (-2) (by norm_num) (by norm_num)⟩

/-! Helper lemmas about the interpolation. -/

theorem info_speed_factor_of_ne (d t : ℝ) (h : t ≠ 0) :
    info_speed_factor d t = EFloat.fin (d / t / SPEED_OF_LIGHT) := by
  rw [info_speed_factor, calculate_causality_of_ne d t h]
  rfl

theorem info_speed_factor_of_zero (d : ℝ) :
    info_speed_factor d 0 = EFloat.inf := by
  rw [info_speed_factor]
  simp only [calculate_causality, if_pos rfl]
  simp [EFloat.divR, SPEED_OF_LIGHT_pos]

theorem info_progress_eq (d t s : ℝ) :
    info_progress d t s =
      EFloat.mulR (s * distance_between) (info_speed_factor d t) := by
  unfold info_progress
  split <;> rfl

/-- The point of the interpolation formula at travelled distance `m`,
rewritten as the segment point at fraction `m / distance_between`. -/
theorem seg_point (m : ℝ) :
    (event_b_pos.1 + direction_normalized.1 * m,
     event_b_pos.2 + direction_normalized.2 * m) =
    (event_b_pos.1 + m / distance_between * (event_a_pos.1 - event_b_pos.1),
     event_b_pos.2 + m / distance_between * (event_a_pos.2 - event_b_pos.2)) := by
  rw [Prod.mk.injEq]
  constructor <;>
    · simp only [direction_normalized, direction]
      ring

/-- The interpolation formula at travelled distance `distance_between`
reaches exactly the destination point. -/
theorem dest_eq :
    (event_b_pos.1 + direction_normalized.1 * distance_between,
     event_b_pos.2 + direction_normalized.2 * distance_between) = event_a_pos := by
  have hD := distance_between_ne
  rw [Prod.mk.injEq]
  constructor <;>
    · simp only [direction_normalized, direction, event_a_pos, event_b_pos]
      field_simp

/-- For a nonzero time separation the information marker is the clamped
linear interpolation of the finite speed factor. -/
theorem info_pos_of_fin (d t s : ℝ) (h : t ≠ 0) :
    info_pos d t s =
      (event_b_pos.1 + direction_normalized.1 *
         (min (s * distance_between * (d / t / SPEED_OF_LIGHT)) distance_between),
       event_b_pos.2 + direction_normalized.2 *
         (min (s * distance_between * (d / t / SPEED_OF_LIGHT)) distance_between)) := by
  have hp : info_progress d t s =
      EFloat.fin (s * distance_between * (d / t / SPEED_OF_LIGHT)) := by
    rw [info_progress_eq, info_speed_factor_of_ne d t h]
    rfl
  unfold info_pos
  rw [hp]
  simp only [EFloat.leR, EFloat.toReal]
  by_cases hle : s * distance_between * (d / t / SPEED_OF_LIGHT) ≤ distance_between
  · rw [if_pos hle, min_eq_left hle]
  · rw [if_neg hle, min_eq_right (le_of_not_le hle)]
    exact dest_eq.symm

/-- For a zero time separation and nonnegative progress the information
marker is the destination point: with positive progress the travelled
distance is `+inf`, and at progress zero it is `0 * inf = nan`; either way
the comparison against `distance_between` is false and the source falls to
the destination branch. -/
theorem info_pos_of_zero_time (d s : ℝ) (hs : 0 ≤ s) :
    info_pos d 0 s = event_a_pos := by
  have hp : info_progress d 0 s =
      EFloat.mulR (s * distance_between) EFloat.inf := by
    rw [info_progress_eq, info_speed_factor_of_zero]
  unfold info_pos
  rw [hp]
  rcases eq_or_lt_of_le hs with h | h
  · rw [← h, zero_mul]
    simp [EFloat.mulR, EFloat.leR]
  · have hpos : 0 < s * distance_between := mul_pos h distance_between_pos
    simp [EFloat.mulR, hpos, EFloat.leR]

/-- C4: for every progress in [0,1], the light marker lies on the segment
from origin to destination at fractional distance exactly the progress. -/
theorem claim_C4 (distance time animation_step : ℝ)
    (h0 : 0 ≤ animation_step) (h1 : animation_step ≤ 1) :
    (create_animated_diagram distance time animation_step).1 =
      (event_b_pos.1 + animation_step * (event_a_pos.1 - event_b_pos.1),
       event_b_pos.2 + animation_step * (event_a_pos.2 - event_b_pos.2)) := by
  show light_pos animation_step = _
  rw [light_pos, light_progress, seg_point, Prod.mk.injEq]
  have hD := distance_between_ne
  constructor <;>
    · congr 1
      rw [mul_div_assoc, div_self hD, mul_one]

/-- Witness for C4 at progress one half. -/
theorem claim_C4_witness :
    ((0:ℝ) ≤ 1 / 2 ∧ (1:ℝ) / 2 ≤ 1) ∧
    (create_animated_diagram 1 2 (1 / 2)).1 =
      (event_b_pos.1 + 1 / 2 * (event_a_pos.1 - event_b_pos.1),
       event_b_pos.2 + 1 / 2 * (event_a_pos.2 - event_b_pos.2)) :=
  ⟨⟨by norm_num, by norm_num⟩, claim_C4 1 2 (1 / 2) (by norm_num) (by norm_num)⟩

/-- C3: for every progress in [0,1] and every evaluator input, the
information marker never lies past the destination along the segment; for
a nonzero time separation it is exactly the origin plus the unit direction
times the travelled distance clamped at the total distance, and with a
finite speed factor above one it reaches exactly the destination at
progress one. -/
theorem claim_C3 (distance time animation_step : ℝ)
    (h0 : 0 ≤ animation_step) (h1 : animation_step ≤ 1) :
    (∃ u : ℝ, u ≤ 1 ∧
      (create_animated_diagram distance time animation_step).2 =
        (event_b_pos.1 + u * (event_a_pos.1 - event_b_pos.1),
         event_b_pos.2 + u * (event_a_pos.2 - event_b_pos.2))) ∧
    (time ≠ 0 →
      (create_animated_diagram distance time animation_step).2 =
        (event_b_pos.1 + direction_normalized.1 *
           (min (animation_step * distance_between *
              (distance / time / SPEED_OF_LIGHT)) distance_between),
         event_b_pos.2 + direction_normalized.2 *
           (min (animation_step * distance_between *
              (distance / time / SPEED_OF_LIGHT)) distance_between))) ∧
    (animation_step = 1 → time ≠ 0 → 1 < distance / time / SPEED_OF_LIGHT →
      (create_animated_diagram distance time animation_step).2 = event_a_pos) := by
  refine ⟨?_, ?_, ?_⟩
  · by_cases h : time = 0
    · subst h
      refine ⟨1, le_refl 1, ?_⟩
      rw [show (create_animated_diagram distance 0 animation_step).2 = event_a_pos from
        info_pos_of_zero_time distance animation_step h0]
      norm_num [event_a_pos, event_b_pos]
    · refine ⟨min (animation_step * distance_between *
          (distance / time / SPEED_OF_LIGHT)) distance_between / distance_between,
        (div_le_one distance_between_pos).mpr (min_le_right _ _), ?_⟩
      rw [show (create_animated_diagram distance time animation_step).2 =
            info_pos distance time animation_step from rfl,
          info_pos_of_fin distance time animation_step h, seg_point]
  · intro h
    exact info_pos_of_fin distance time animation_step h
  · intro hs ht hf
    subst hs
    rw [show (create_animated_diagram distance time 1).2 =
          info_pos distance time 1 from rfl,
        info_pos_of_fin distance time 1 ht]
    have hlt : distance_between ≤
        1 * distance_between * (distance / time / SPEED_OF_LIGHT) := by
      rw [one_mul]
      nlinarith [distance_between_pos]
    rw [min_eq_right hlt]
    exact dest_eq

/-- Witness for C3 at distance 4, time 2, progress 1. -/
theorem claim_C3_witness :
    ((0:ℝ) ≤ 1 ∧ (1:ℝ) ≤ 1) ∧
    ((∃ u : ℝ, u ≤ 1 ∧
      (create_animated_diagram 4 2 1).2 =
        (event_b_pos.1 + u * (event_a_pos.1 - event_b_pos.1),
         event_b_pos.2 + u * (event_a_pos.2 - event_b_pos.2))) ∧
    ((2:ℝ) ≠ 0 →
      (create_animated_diagram 4 2 1).2 =
        (event_b_pos.1 + direction_normalized.1 *
           (min ((1:ℝ) * distance_between * (4 / 2 / SPEED_OF_LIGHT)) distance_between),
         event_b_pos.2 + direction_normalized.2 *
           (min ((1:ℝ) * distance_between * (4 / 2 / SPEED_OF_LIGHT)) distance_between))) ∧
    ((1:ℝ) = 1 → (2:ℝ) ≠ 0 → 1 < (4:ℝ) / 2 / SPEED_OF_LIGHT →
      (create_animated_diagram 4 2 1).2 = event_a_pos)) :=
  ⟨⟨by norm_num, by norm_num⟩, claim_C3 4 2 1 (by norm_num) (by norm_num)⟩

/-- C5: for a zero time separation the required speed and the speed factor
are plus infinity, and for every positive progress the information marker
is exactly the destination point. -/
theorem claim_C5 (distance animation_step : ℝ) (hs : 0 < animation_step) :
    (calculate_causality distance 0).2 = EFloat.inf ∧
    info_speed_factor distance 0 = EFloat.inf ∧
    (create_animated_diagram distance 0 animation_step).2 = event_a_pos := by
  refine ⟨?_, info_speed_factor_of_zero distance,
    info_pos_of_zero_time distance animation_step (le_of_lt hs)⟩
  simp [calculate_causality]

/-- Witness for C5 at distance 5, progress one half. -/
theorem claim_C5_witness :
    (0:ℝ) < 1 / 2 ∧
    ((calculate_causality 5 0).2 = EFloat.inf ∧
     info_speed_factor 5 0 = EFloat.inf ∧
     (create_animated_diagram 5 0 (1 / 2)).2 = event_a_pos) :=
  ⟨by norm_num, claim_C5 5 (1 / 2) (by norm_num)⟩

/-- Counterexample to C6: at distance 1, time separation 0 and progress 0
the information marker is the destination point, not the origin, because
the travelled distance `0 * inf` is `nan` and the clamping comparison with
`nan` is false. -/
theorem claim_C6_cex :
    (create_animated_diagram 1 0 0).2 = event_a_pos ∧
    (create_animated_diagram 1 0 0).2 ≠ event_b_pos := by
  have h : (create_animated_diagram 1 0 0).2 = event_a_pos :=
    info_pos_of_zero_time 1 0 le_rfl
  refine ⟨h, ?_⟩
  rw [h]
  norm_num [event_a_pos, event_b_pos, Prod.ext_iff]

/-- C6 amended: at progress 0 the light marker is the origin for every
input, and the information marker is the origin for every nonzero time
separation; for a zero time separation the information marker is the
destination point instead. -/
theorem claim_C6_amended (distance time : ℝ) :
    (create_animated_diagram distance time 0).1 = event_b_pos ∧
    (time ≠ 0 → (create_animated_diagram distance time 0).2 = event_b_pos) ∧
    (time = 0 → (create_animated_diagram distance time 0).2 = event_a_pos) := by
  refine ⟨?_, ?_, ?_⟩
  · show light_pos 0 = event_b_pos
    simp [light_pos, light_progress, event_b_pos]
  · intro h
    show info_pos distance time 0 = event_b_pos
    rw [info_pos_of_fin distance time 0 h, zero_mul, zero_mul,
        min_eq_left (le_of_lt distance_between_pos)]
    simp [event_b_pos]
  · intro h
    subst h
    exact info_pos_of_zero_time distance 0 le_rfl

/-- Witness for C6 amended: at time 3 the marker is the origin, at time 0
it is the destination. -/
theorem claim_C6_amended_witness :
    (create_animated_diagram 2 3 0).2 = event_b_pos ∧
    (create_animated_diagram 2 0 0).2 = event_a_pos :=
  ⟨(claim_C6_amended 2 3).2.1 (by norm_num), (claim_C6_amended 2 0).2.2 rfl⟩

/-- C10: the two event endpoints are the fixed distinct constants (1, 3)
and (9, 6), the segment length is the strictly positive number sqrt 73,
and the normalizing division is never by zero. -/
theorem claim_C10 :
    event_b_pos = (1, 3) ∧ event_a_pos = (9, 6) ∧
    event_b_pos ≠ event_a_pos ∧
    distance_between = Real.sqrt 73 ∧
    0 < distance_between ∧ distance_between ≠ 0 :=
  ⟨rfl, rfl, by norm_num [event_b_pos, event_a_pos, Prod.ext_iff],
   distance_between_eq, distance_between_pos, distance_between_ne⟩
